import Mathlib

/-
Verification of `src/public/posts/rain-paradox/rain-paradox.py`.

The script computes a "wetness" score (raindrop impacts) for a body
moving through rain at a given speed over a given distance, for a fixed
list of speeds, prints the truncated results and plots them.  The
arithmetic of `simulate_wetness` is embedded over ℚ; the one failure
mode (division by zero when `speed = 0`) is modelled by returning
`Option ℚ`, with `none` standing for Python's ZeroDivisionError.
-/

namespace RainParadox

/-- Division as performed by the source: raising a fault (here `none`)
when the divisor is zero, and the exact quotient otherwise. -/
def pydiv (a b : ℚ) : Option ℚ :=
  if b = 0 then none else some (a / b)

/-- Shallow embedding of `simulate_wetness(speed_ft_s, distance_ft=500,
rain_density=1000)`: fixed body dimensions, exposure time
`distance / speed`, top and front silhouette areas, and the sum of the
rain caught from above and from the front. -/
def simulate_wetness (speed_ft_s : ℚ) (distance_ft : ℚ := 500)
    (rain_density : ℚ := 1000) : Option ℚ :=
  let height : ℚ := 70 / 12
  let width : ℚ := 20 / 12
  let depth : ℚ := 12 / 12
  match pydiv distance_ft speed_ft_s with
  | none => none
  | some time_in_rain =>
    let top_area := width * depth
    let front_area := height * width
    let rain_from_above := rain_density * top_area * time_in_rain
    let rain_from_front := rain_density * front_area * distance_ft
    some (rain_from_above + rain_from_front)

/-- The fixed list of example speeds from the driver (`__main__`). -/
def speeds : List ℚ := [33/10, 11/2, 44/5, 66/5, 30]

/-- The driver's list comprehension: wetness at each example speed with
the default distance and density. -/
def wetness_values : List (Option ℚ) := speeds.map (fun s => simulate_wetness s)

/-- Python's `int()` applied to a numeric value: truncation toward zero. -/
def pyInt (q : ℚ) : ℤ := if 0 ≤ q then ⌊q⌋ else ⌈q⌉

/-- Closed form of `simulate_wetness` away from the fault: for a nonzero
speed the result is `some` of `rain_from_above + rain_from_front`. -/
theorem simulate_wetness_some (s d r : ℚ) (hs : s ≠ 0) :
    simulate_wetness s d r =
      some (r * (20/12 * (12/12)) * (d / s) + r * (70/12 * (20/12)) * d) := by
  simp only [simulate_wetness, pydiv, if_neg hs]

/-- C1: for every nonzero speed `s`, distance `d` and density `r`,
`simulate_wetness s d r` equals the closed-form reference expression
`r * (20/12 * 12/12) * (d / s) + r * (70/12 * 20/12) * d`, the sum of the
rain from above and the rain from the front for the fixed body
dimensions. -/
theorem wetness_closed_form (s d r : ℚ) (hs : s ≠ 0) :
    simulate_wetness s d r =
      some (r * (20/12 * (12/12)) * (d / s) + r * (70/12 * (20/12)) * d) :=
  simulate_wetness_some s d r hs

/-- Witness for C1 at speed 3, distance 500, density 1000. -/
theorem wetness_closed_form_witness :
    simulate_wetness 3 500 1000 =
      some (1000 * (20/12 * (12/12)) * (500 / 3) + 1000 * (70/12 * (20/12)) * 500) :=
  wetness_closed_form 3 500 1000 (by norm_num)

/-- C2 counterexample: the claim asserts a strict decrease in speed for
every fixed distance and density, but at distance 0 the wetness is the
same (namely 0) for speeds 1 and 2 even though 1 < 2. -/
theorem wetness_not_strictly_decreasing_at_zero_distance :
    (1:ℚ) < 2 ∧ simulate_wetness 1 0 1000 = some 0 ∧
      simulate_wetness 2 0 1000 = some 0 := by
  refine ⟨by norm_num, ?_, ?_⟩ <;>
    simp [simulate_wetness, pydiv]

/-- C2 (amended): for a positive distance and a positive density, wetness
is strictly decreasing in speed: if `0 < a < b` then the wetness at
speed `b` is strictly below the wetness at speed `a`. -/
theorem wetness_strictly_decreasing (a b d r : ℚ) (ha : 0 < a) (hab : a < b)
    (hd : 0 < d) (hr : 0 < r) (wa wb : ℚ)
    (hwa : simulate_wetness a d r = some wa)
    (hwb : simulate_wetness b d r = some wb) : wb < wa := by
  rw [simulate_wetness_some a d r (ne_of_gt ha)] at hwa
  rw [simulate_wetness_some b d r (ne_of_gt (ha.trans hab))] at hwb
  obtain ⟨rfl⟩ := Option.some_injective _ hwa.symm
  obtain ⟨rfl⟩ := Option.some_injective _ hwb.symm
  have hdiv : d / b < d / a := div_lt_div_of_pos_left hd ha hab
  have hcoef : (0:ℚ) < r * (20/12 * (12/12)) := by positivity
  have := mul_lt_mul_of_pos_left hdiv hcoef
  linarith

/-- Witness for C2 (amended) at speeds 1 < 2, distance 500, density 1000. -/
theorem wetness_strictly_decreasing_witness :
    (47500000/9 : ℚ) < 51250000/9 :=
  wetness_strictly_decreasing 1 2 500 1000 (by norm_num) (by norm_num)
    (by norm_num) (by norm_num) (51250000/9) (47500000/9)
    (by rw [simulate_wetness_some 1 500 1000 (by norm_num)]; norm_num)
    (by rw [simulate_wetness_some 2 500 1000 (by norm_num)]; norm_num)

/-- C3: linearity in rain density: for speed > 0,
`simulate_wetness s d r` equals `r` times `simulate_wetness s d 1`,
as an exact equality. -/
theorem wetness_linear_in_density (s d r : ℚ) (hs : 0 < s) :
    simulate_wetness s d r = (simulate_wetness s d 1).map (fun w => r * w) := by
  rw [simulate_wetness_some s d r (ne_of_gt hs),
    simulate_wetness_some s d 1 (ne_of_gt hs)]
  simp only [Option.map_some']
  congr 1
  ring

/-- Witness for C3 at speed 1, distance 1, density 2. -/
theorem wetness_linear_in_density_witness :
    simulate_wetness 1 1 2 = (simulate_wetness 1 1 1).map (fun w => 2 * w) :=
  wetness_linear_in_density 1 1 2 (by norm_num)

/-- C4: `simulate_wetness` faults exactly when the speed is zero: the
result is `none` (the division fault of `distance / speed`) iff
`speed = 0`, and otherwise the function returns normally. -/
theorem wetness_fault_iff_zero_speed (s d r : ℚ) :
    simulate_wetness s d r = none ↔ s = 0 := by
  by_cases h : s = 0
  · subst h
    simp [simulate_wetness, pydiv]
  · rw [simulate_wetness_some s d r h]
    simp [h]

/-- C5: non-negativity: for speed > 0, distance ≥ 0 and density ≥ 0,
`simulate_wetness` returns normally and the returned value is ≥ 0. -/
theorem wetness_nonneg (s d r : ℚ) (hs : 0 < s) (hd : 0 ≤ d) (hr : 0 ≤ r) :
    ∃ w, simulate_wetness s d r = some w ∧ 0 ≤ w := by
  refine ⟨_, simulate_wetness_some s d r (ne_of_gt hs), ?_⟩
  have h1 : (0:ℚ) ≤ r * (20/12 * (12/12)) * (d / s) := by positivity
  have h2 : (0:ℚ) ≤ r * (70/12 * (20/12)) * d := by positivity
  linarith

/-- Witness for C5 at speed 3, distance 500, density 1000. -/
theorem wetness_nonneg_witness :
    ∃ w, simulate_wetness 3 500 1000 = some w ∧ 0 ≤ w :=
  wetness_nonneg 3 500 1000 (by norm_num) (by norm_num) (by norm_num)

/-- C6: for the fixed driver speeds `[3.3, 5.5, 8.8, 13.2, 30.0]` with
the default distance and density, every call returns normally and the
five printed wetness integers (the int-truncated results) are strictly
decreasing in the order given. -/
theorem driver_output_strictly_decreasing :
    ∃ ws : List ℤ, wetness_values.map (Option.map pyInt) = ws.map some ∧
      ws.Chain' (fun x y => y < x) := by
  refine ⟨[5113636, 5012626, 4955808, 4924242, 4888888], ?_, ?_⟩
  · have e1 : simulate_wetness (33/10) = some (506250000/99) := by
      rw [simulate_wetness_some (33/10) 500 1000 (by norm_num)]; norm_num
    have e2 : simulate_wetness (11/2) = some (496250000/99) := by
      rw [simulate_wetness_some (11/2) 500 1000 (by norm_num)]; norm_num
    have e3 : simulate_wetness (44/5) = some (490625000/99) := by
      rw [simulate_wetness_some (44/5) 500 1000 (by norm_num)]; norm_num
    have e4 : simulate_wetness (66/5) = some (487500000/99) := by
      rw [simulate_wetness_some (66/5) 500 1000 (by norm_num)]; norm_num
    have e5 : simulate_wetness 30 = some (44000000/9) := by
      rw [simulate_wetness_some 30 500 1000 (by norm_num)]; norm_num
    simp only [wetness_values, speeds, List.map_cons, List.map_nil,
      e1, e2, e3, e4, e5, Option.map_some', pyInt]
    norm_num [Int.floor_eq_iff]
  · simp only [List.chain'_cons, List.chain'_singleton]
    norm_num

/-- C7: the concrete default scenario: `simulate_wetness` at speed 3.3
with distance 500 and density 1000 returns a value within 1e-6 of the
reference expression (over ℚ the match is exact). -/
theorem wetness_default_scenario :
    ∃ w, simulate_wetness (33/10) 500 1000 = some w ∧
      |w - (1000 * (20/12 * (12/12)) * (500 / (33/10)) +
        1000 * (70/12 * (20/12)) * 500)| ≤ 1/1000000 := by
  refine ⟨506250000/99, ?_, by norm_num⟩
  rw [simulate_wetness_some (33/10) 500 1000 (by norm_num)]
  norm_num

/-- C8: the front-impact contribution is speed-independent: subtracting
the rain-from-above term `r * (20/12 * 12/12) * (d / speed)` from the
wetness leaves the same quantity for any two positive speeds sharing the
same distance and density. -/
theorem front_term_speed_independent (a b d r : ℚ) (ha : 0 < a) (hb : 0 < b)
    (wa wb : ℚ) (hwa : simulate_wetness a d r = some wa)
    (hwb : simulate_wetness b d r = some wb) :
    wa - r * (20/12 * (12/12)) * (d / a) = wb - r * (20/12 * (12/12)) * (d / b) := by
  rw [simulate_wetness_some a d r (ne_of_gt ha)] at hwa
  rw [simulate_wetness_some b d r (ne_of_gt hb)] at hwb
  obtain ⟨rfl⟩ := Option.some_injective _ hwa.symm
  obtain ⟨rfl⟩ := Option.some_injective _ hwb.symm
  ring

/-- Witness for C8 at speeds 1 and 2, distance 500, density 1000. -/
theorem front_term_speed_independent_witness :
    (51250000/9 : ℚ) - 1000 * (20/12 * (12/12)) * (500 / 1) =
      (47500000/9 : ℚ) - 1000 * (20/12 * (12/12)) * (500 / 2) :=
  front_term_speed_independent 1 2 500 1000 (by norm_num) (by norm_num)
    (51250000/9) (47500000/9)
    (by rw [simulate_wetness_some 1 500 1000 (by norm_num)]; norm_num)
    (by rw [simulate_wetness_some 2 500 1000 (by norm_num)]; norm_num)

/-- C9: lower bound: for speed > 0, distance ≥ 0 and density ≥ 0, the
wetness never drops below the speed-independent front-impact term
`r * (70/12 * 20/12) * d`. -/
theorem wetness_lower_bound (s d r : ℚ) (hs : 0 < s) (hd : 0 ≤ d) (hr : 0 ≤ r) :
    ∃ w, simulate_wetness s d r = some w ∧ r * (70/12 * (20/12)) * d ≤ w := by
  refine ⟨_, simulate_wetness_some s d r (ne_of_gt hs), ?_⟩
  have h1 : (0:ℚ) ≤ r * (20/12 * (12/12)) * (d / s) := by positivity
  linarith

/-- Witness for C9 at speed 3, distance 500, density 1000. -/
theorem wetness_lower_bound_witness :
    ∃ w, simulate_wetness 3 500 1000 = some w ∧
      1000 * (70/12 * (20/12)) * 500 ≤ w :=
  wetness_lower_bound 3 500 1000 (by norm_num) (by norm_num) (by norm_num)

/-- C10: zero-distance edge case: for every nonzero speed and every
density, `simulate_wetness` at distance 0 returns exactly 0. -/
theorem wetness_zero_distance (s r : ℚ) (hs : s ≠ 0) :
    simulate_wetness s 0 r = some 0 := by
  rw [simulate_wetness_some s 0 r hs]
  norm_num

/-- Witness for C10 at speed 5, density 7. -/
theorem wetness_zero_distance_witness : simulate_wetness 5 0 7 = some 0 :=
  wetness_zero_distance 5 7 (by norm_num)

end RainParadox
